import Mathlib

/-
  Verification of the EazyHealth content-generation core against its
  specification.  The backend decision logic (scheduler, reading-level
  policy, briefing store, source resolver, generation engine) is described
  by the specification and by backend/SCHEDULER_GUIDE.md; the frontend
  form and pagination logic is embedded from the TypeScript sources.
-/

deriving instance DecidableEq for Except

namespace EazyHealth

/-- The five reading-level tiers, ordered by increasing complexity
(frontend/src/types ReadingLevel). -/
inductive ReadingLevel where
  | grade3
  | grade6
  | grade8
  | highSchool
  | college
deriving DecidableEq, Repr

/-- Content type of a briefing or scheduled job. -/
inductive ContentType where
  | dataAnalysis
  | articleSummary
deriving DecidableEq, Repr

/-- Days of the week, as the scheduler distinguishes them. -/
inductive Weekday where
  | monday
  | tuesday
  | wednesday
  | thursday
  | friday
  | saturday
  | sunday
deriving DecidableEq, Repr

/-- One scheduled generation task: content type, reading level, optional
topic (data-analysis jobs have no topic). -/
structure ScheduleJob where
  content_type : ContentType
  reading_level : ReadingLevel
  topic : Option String
deriving DecidableEq, Repr

/-- Modelled from the spec: scheduler.py is absent from the sources; the
curated topic list is reproduced from backend/SCHEDULER_GUIDE.md, section
Article Topics. -/
def ARTICLE_TOPICS : List String :=
  [ "Diabetes management"
  , "Heart health and cardiovascular disease"
  , "Mental health and wellness"
  , "Nutrition and healthy eating"
  , "Vaccine safety and effectiveness"
  , "Cancer prevention and screening"
  , "Sleep and health"
  , "Exercise and physical activity"
  , "Antibiotic resistance"
  , "Maternal and child health" ]

/-- Modelled from the spec: scheduler.py is absent from the sources; the
Monday data-analysis reading level of week w in the 4-week cycle, per the
rotation table of backend/SCHEDULER_GUIDE.md (weeks numbered from 0 here,
from 1 in the guide). -/
def mondayDataLevel (week : Nat) : ReadingLevel :=
  match week % 4 with
  | 0 => .grade6
  | 1 => .grade8
  | 2 => .highSchool
  | _ => .college

/-- Modelled from the spec: scheduler.py is absent from the sources; the
Thursday data-analysis reading level of week w in the 4-week cycle, the
documented complement of the Monday tier. -/
def thursdayDataLevel (week : Nat) : ReadingLevel :=
  match week % 4 with
  | 0 => .highSchool
  | 1 => .college
  | 2 => .grade6
  | _ => .grade8

/-- Modelled from the spec: the per-weekday article-summary reading level
(Mon grade6, Tue grade8, Wed highSchool, Thu college, Fri grade3), none on
the weekend. -/
def articleLevelForDay (day : Weekday) : Option ReadingLevel :=
  match day with
  | .monday => some .grade6
  | .tuesday => some .grade8
  | .wednesday => some .highSchool
  | .thursday => some .college
  | .friday => some .grade3
  | .saturday => none
  | .sunday => none

/-- Modelled from the spec: scheduler.py is absent from the sources.
Computes the jobs for a date given by its week index in the 4-week cycle
and its weekday, together with the persisted round-robin topic cursor,
which is passed in and the advanced cursor returned (spec section 4.5 and
design note on the topic cursor).  One article-summary job per weekday
with the fixed per-day level and the next round-robin topic; one
data-analysis job on Monday and Thursday with the rotation level; nothing
on the weekend. -/
def jobsForDate (week : Nat) (day : Weekday) (cursor : Nat) :
    List ScheduleJob × Nat :=
  match articleLevelForDay day with
  | none => ([], cursor)
  | some lvl =>
      let idx := (cursor + 1) % ARTICLE_TOPICS.length
      let articleJob : ScheduleJob :=
        ⟨.articleSummary, lvl, some (ARTICLE_TOPICS.getD idx "")⟩
      let dataJobs : List ScheduleJob :=
        if day = .monday then [⟨.dataAnalysis, mondayDataLevel week, none⟩]
        else if day = .thursday then
          [⟨.dataAnalysis, thursdayDataLevel week, none⟩]
        else []
      (dataJobs ++ [articleJob], idx)

/-- Counts the jobs of a given content type in a job list. -/
def countType (jobs : List ScheduleJob) (t : ContentType) : Nat :=
  jobs.countP (fun j => j.content_type == t)

/-- Counts the jobs of a given content type and reading level. -/
def countTypeLevel (jobs : List ScheduleJob) (t : ContentType)
    (lvl : ReadingLevel) : Nat :=
  jobs.countP (fun j => j.content_type == t && j.reading_level == lvl)

/-- Claim C1: for every week of the cycle and every topic cursor,
jobsForDate yields no jobs on Saturday or Sunday; on Monday exactly one
data-analysis job and exactly one article-summary job, whose reading level
is grade6; on Friday exactly one article-summary job, at level grade3, and
no data-analysis job. -/
theorem jobsForDate_weekend_monday_friday (week cursor : Nat) :
    (jobsForDate week .saturday cursor).1 = [] ∧
    (jobsForDate week .sunday cursor).1 = [] ∧
    countType (jobsForDate week .monday cursor).1 .dataAnalysis = 1 ∧
    countType (jobsForDate week .monday cursor).1 .articleSummary = 1 ∧
    countTypeLevel (jobsForDate week .monday cursor).1 .articleSummary
      .grade6 = 1 ∧
    countType (jobsForDate week .friday cursor).1 .articleSummary = 1 ∧
    countTypeLevel (jobsForDate week .friday cursor).1 .articleSummary
      .grade3 = 1 ∧
    countType (jobsForDate week .friday cursor).1 .dataAnalysis = 0 := by
  refine ⟨rfl, rfl, ?_, ?_, ?_, ?_, ?_, ?_⟩ <;>
    simp [jobsForDate, articleLevelForDay, countType, countTypeLevel,
      List.countP_cons, List.countP_append]

/-- Witness for C1 at a concrete week and cursor. -/
theorem jobsForDate_weekend_monday_friday_witness :
    (jobsForDate 2 .saturday 5).1 = [] ∧
    (jobsForDate 2 .sunday 5).1 = [] ∧
    countType (jobsForDate 2 .monday 5).1 .dataAnalysis = 1 ∧
    countType (jobsForDate 2 .monday 5).1 .articleSummary = 1 ∧
    countTypeLevel (jobsForDate 2 .monday 5).1 .articleSummary .grade6 = 1 ∧
    countType (jobsForDate 2 .friday 5).1 .articleSummary = 1 ∧
    countTypeLevel (jobsForDate 2 .friday 5).1 .articleSummary .grade3 = 1 ∧
    countType (jobsForDate 2 .friday 5).1 .dataAnalysis = 0 :=
  jobsForDate_weekend_monday_friday 2 5

/-- Claim C2: within every week of the 4-week cycle the Monday and
Thursday data-analysis tiers differ; the Monday tier differs across weeks
of the cycle, and likewise the Thursday tier; and the tiers follow the
documented rotation table exactly. -/
theorem data_rotation_complementary :
    (∀ week : Nat, mondayDataLevel week ≠ thursdayDataLevel week) ∧
    (∀ w1 w2 : Nat, w1 % 4 ≠ w2 % 4 →
      mondayDataLevel w1 ≠ mondayDataLevel w2) ∧
    (∀ w1 w2 : Nat, w1 % 4 ≠ w2 % 4 →
      thursdayDataLevel w1 ≠ thursdayDataLevel w2) ∧
    [mondayDataLevel 0, mondayDataLevel 1, mondayDataLevel 2,
      mondayDataLevel 3] =
      [.grade6, .grade8, .highSchool, .college] ∧
    [thursdayDataLevel 0, thursdayDataLevel 1, thursdayDataLevel 2,
      thursdayDataLevel 3] =
      [.highSchool, .college, .grade6, .grade8] := by
  have hm : ∀ w : Nat, w % 4 = 0 ∨ w % 4 = 1 ∨ w % 4 = 2 ∨ w % 4 = 3 := by
    intro w; omega
  refine ⟨?_, ?_, ?_, by decide, by decide⟩
  · intro w
    rcases hm w with h | h | h | h <;>
      simp [mondayDataLevel, thursdayDataLevel, h]
  · intro w1 w2 hne
    rcases hm w1 with h1 | h1 | h1 | h1 <;>
      rcases hm w2 with h2 | h2 | h2 | h2 <;>
        simp [mondayDataLevel, h1, h2] <;> omega
  · intro w1 w2 hne
    rcases hm w1 with h1 | h1 | h1 | h1 <;>
      rcases hm w2 with h2 | h2 | h2 | h2 <;>
        simp [thursdayDataLevel, h1, h2] <;> omega

/-- Witness for C2: the injectivity parts applied at weeks 0 and 1. -/
theorem data_rotation_complementary_witness :
    mondayDataLevel 0 ≠ thursdayDataLevel 0 ∧
    mondayDataLevel 0 ≠ mondayDataLevel 1 ∧
    thursdayDataLevel 0 ≠ thursdayDataLevel 1 :=
  ⟨data_rotation_complementary.1 0,
   data_rotation_complementary.2.1 0 1 (by decide),
   data_rotation_complementary.2.2.1 0 1 (by decide)⟩

/-- A persisted briefing (spec section 3; frontend/src/types
BriefingDetail, minus the auxiliary metadata maps). -/
structure Briefing where
  id : Nat
  slug : String
  title : String
  summary : String
  body : String
  source_type : ContentType
  source_urls : List String
  tags : List String
  reading_level : ReadingLevel
  created_at : Nat
  disclaimer : String
deriving DecidableEq, Repr

/-- Error outcomes of the briefing store (spec section 7). -/
inductive StoreError where
  | slugCollision : String → StoreError
deriving DecidableEq, Repr

/-- Modelled from the spec: the backend store (SQLAlchemy briefing model
and routers) is absent from the sources.  The store is the ordered list of
persisted rows plus the next numeric identifier. -/
structure BriefingStore where
  rows : List Briefing
  nextId : Nat
deriving DecidableEq, Repr

/-- Modelled from the spec: fetch a briefing by its unique slug. -/
def getBySlug (st : BriefingStore) (slug : String) : Option Briefing :=
  st.rows.find? (fun b => b.slug == slug)

/-- Modelled from the spec: create persists the briefing with a
store-assigned id, or fails with a slug collision when the slug already
exists; a failing call produces no new store state and the slug is never
mutated for a retry.  Returns the stored briefing and the new state. -/
def create (st : BriefingStore) (b : Briefing) :
    Except StoreError (Briefing × BriefingStore) :=
  match getBySlug st b.slug with
  | some _ => .error (.slugCollision b.slug)
  | none =>
      let stored : Briefing := { b with id := st.nextId }
      .ok (stored, ⟨st.rows ++ [stored], st.nextId + 1⟩)

/-- Claim C3: after a successful create, a second create whose briefing
carries the same slug fails with a slug collision naming that very slug
(no mutated slug), and the first briefing remains retrievable unchanged
from the state left by the first call, which the failing call did not
modify. -/
theorem create_second_same_slug_collides (st : BriefingStore)
    (b1 b2 stored : Briefing) (st1 : BriefingStore)
    (h1 : create st b1 = .ok (stored, st1)) (hs : b2.slug = b1.slug) :
    create st1 b2 = .error (.slugCollision b2.slug) ∧
    getBySlug st1 b1.slug = some stored := by
  unfold create at h1
  rcases hfind : getBySlug st b1.slug with _ | c
  · rw [hfind] at h1
    simp only [Except.ok.injEq, Prod.mk.injEq] at h1
    obtain ⟨hstored, hst1⟩ := h1
    subst hstored
    subst hst1
    have hget : getBySlug
        ⟨st.rows ++ [{ b1 with id := st.nextId }], st.nextId + 1⟩
        b1.slug = some { b1 with id := st.nextId } := by
      unfold getBySlug at hfind ⊢
      rw [List.find?_append, hfind, Option.none_or,
        List.find?_cons_of_pos _ (by simp)]
    refine ⟨?_, hget⟩
    unfold create
    rw [hs, hget]
  · rw [hfind] at h1
    exact absurd h1 (by simp)

/-- Witness for C3 at a concrete store and pair of briefings. -/
theorem create_second_same_slug_collides_witness :
    create ⟨[⟨0, "flu-shots", "t", "s", "b", .articleSummary, ["u"],
        ["tag"], .grade6, 1, "d"⟩], 1⟩
      ⟨0, "flu-shots", "t2", "s2", "b2", .dataAnalysis, ["u2"], [],
        .grade8, 2, "d"⟩ =
      .error (.slugCollision "flu-shots") ∧
    getBySlug ⟨[⟨0, "flu-shots", "t", "s", "b", .articleSummary, ["u"],
        ["tag"], .grade6, 1, "d"⟩], 1⟩ "flu-shots" =
      some ⟨0, "flu-shots", "t", "s", "b", .articleSummary, ["u"],
        ["tag"], .grade6, 1, "d"⟩ :=
  create_second_same_slug_collides ⟨[], 0⟩
    ⟨7, "flu-shots", "t", "s", "b", .articleSummary, ["u"], ["tag"],
      .grade6, 1, "d"⟩
    ⟨0, "flu-shots", "t2", "s2", "b2", .dataAnalysis, ["u2"], [],
      .grade8, 2, "d"⟩
    ⟨0, "flu-shots", "t", "s", "b", .articleSummary, ["u"], ["tag"],
      .grade6, 1, "d"⟩
    ⟨[⟨0, "flu-shots", "t", "s", "b", .articleSummary, ["u"], ["tag"],
      .grade6, 1, "d"⟩], 1⟩
    rfl rfl

/-- Claim C8: a briefing successfully written by create is returned
field-for-field identical by a subsequent getBySlug on its slug. -/
theorem create_getBySlug_roundtrip (st : BriefingStore) (b stored : Briefing)
    (st1 : BriefingStore) (h : create st b = .ok (stored, st1)) :
    getBySlug st1 stored.slug = some stored := by
  unfold create at h
  rcases hfind : getBySlug st b.slug with _ | c
  · rw [hfind] at h
    simp only [Except.ok.injEq, Prod.mk.injEq] at h
    obtain ⟨hstored, hst1⟩ := h
    subst hstored
    subst hst1
    unfold getBySlug at hfind ⊢
    rw [List.find?_append, hfind, Option.none_or,
      List.find?_cons_of_pos _ (by simp)]
  · rw [hfind] at h
    exact absurd h (by simp)

/-- Witness for C8 at a concrete store and briefing. -/
theorem create_getBySlug_roundtrip_witness :
    getBySlug ⟨[⟨0, "sleep-and-health", "t", "s", "b", .articleSummary,
        ["u"], [], .grade3, 4, "d"⟩], 1⟩ "sleep-and-health" =
      some ⟨0, "sleep-and-health", "t", "s", "b", .articleSummary, ["u"],
        [], .grade3, 4, "d"⟩ :=
  create_getBySlug_roundtrip ⟨[], 0⟩
    ⟨9, "sleep-and-health", "t", "s", "b", .articleSummary, ["u"], [],
      .grade3, 4, "d"⟩
    ⟨0, "sleep-and-health", "t", "s", "b", .articleSummary, ["u"], [],
      .grade3, 4, "d"⟩
    ⟨[⟨0, "sleep-and-health", "t", "s", "b", .articleSummary, ["u"], [],
      .grade3, 4, "d"⟩], 1⟩
    rfl

/-- The listing order of the store: briefing a precedes briefing b when
the created_at of b is at most that of a (most recent first). -/
def createdDesc (a b : Briefing) : Prop :=
  b.created_at ≤ a.created_at

instance : DecidableRel createdDesc := fun a b =>
  Nat.decLe b.created_at a.created_at

instance : IsTotal Briefing createdDesc :=
  ⟨fun a b => Nat.le_total b.created_at a.created_at⟩

instance : IsTrans Briefing createdDesc :=
  ⟨fun _ _ _ hab hbc => Nat.le_trans hbc hab⟩

/-- Modelled from the spec: the backend listing endpoint is absent from
the sources.  Applies the optional source-type filter, orders by
created_at descending and pages with offset and limit, returning the
items of the page and the total count of filtered rows. -/
def listBriefings (st : BriefingStore) (srcFilter : Option ContentType)
    (limit offset : Nat) : List Briefing × Nat :=
  let filtered := match srcFilter with
    | none => st.rows
    | some t => st.rows.filter (fun b => b.source_type == t)
  let sorted := List.insertionSort createdDesc filtered
  ((sorted.drop offset).take limit, filtered.length)

/-- Claim C4: for every store state, every filter and every page, the
returned items are ordered by created_at descending; and the unfiltered
query with limit 1 and offset 0 returns exactly one briefing, a stored
one whose created_at is maximal among all stored briefings. -/
theorem listBriefings_sorted_latest :
    (∀ (st : BriefingStore) (srcFilter : Option ContentType)
      (limit offset : Nat),
      ((listBriefings st srcFilter limit offset).1).Sorted createdDesc) ∧
    (∀ st : BriefingStore, st.rows ≠ [] → ∃ b : Briefing,
      listBriefings st none 1 0 = ([b], st.rows.length) ∧
      b ∈ st.rows ∧
      ∀ c ∈ st.rows, c.created_at ≤ b.created_at) := by
  constructor
  · intro st srcFilter limit offset
    have hsor :
        (List.insertionSort createdDesc
          (match srcFilter with
           | none => st.rows
           | some t => st.rows.filter (fun b => b.source_type == t))).Sorted
          createdDesc :=
      List.sorted_insertionSort createdDesc _
    exact List.Pairwise.sublist
      ((List.take_sublist _ _).trans (List.drop_sublist _ _)) hsor
  · intro st hne
    have hperm := List.perm_insertionSort createdDesc st.rows
    have hsor := List.sorted_insertionSort createdDesc st.rows
    rcases hcase : List.insertionSort createdDesc st.rows with _ | ⟨b, rest⟩
    · rw [hcase] at hperm
      exact absurd hperm.symm.eq_nil hne
    · rw [hcase] at hperm hsor
      refine ⟨b, ?_, ?_, ?_⟩
      · simp [listBriefings, hcase]
      · exact hperm.subset (List.mem_cons_self b rest)
      · intro c hc
        have hc2 : c ∈ b :: rest := hperm.symm.subset hc
        rcases List.mem_cons.mp hc2 with h | h
        · exact h ▸ Nat.le_refl _
        · exact List.rel_of_sorted_cons hsor c h

/-- Witness for C4 at a concrete two-row store. -/
theorem listBriefings_sorted_latest_witness :
    ∃ b : Briefing,
      listBriefings
        ⟨[⟨0, "a", "t", "s", "b", .articleSummary, ["u"], [], .grade6, 3,
            "d"⟩,
          ⟨1, "c", "t", "s", "b", .dataAnalysis, ["u"], [], .grade8, 9,
            "d"⟩], 2⟩ none 1 0 =
        ([b], 2) ∧
      b ∈ [⟨0, "a", "t", "s", "b", .articleSummary, ["u"], [], .grade6, 3,
            "d"⟩,
          (⟨1, "c", "t", "s", "b", .dataAnalysis, ["u"], [], .grade8, 9,
            "d"⟩ : Briefing)] ∧
      ∀ c ∈ [⟨0, "a", "t", "s", "b", .articleSummary, ["u"], [], .grade6,
            3, "d"⟩,
          (⟨1, "c", "t", "s", "b", .dataAnalysis, ["u"], [], .grade8, 9,
            "d"⟩ : Briefing)], c.created_at ≤ b.created_at :=
  listBriefings_sorted_latest.2
    ⟨[⟨0, "a", "t", "s", "b", .articleSummary, ["u"], [], .grade6, 3,
        "d"⟩,
      ⟨1, "c", "t", "s", "b", .dataAnalysis, ["u"], [], .grade8, 9,
        "d"⟩], 2⟩
    (by simp)

/-- Error outcome of the reading-level policy (spec section 7). -/
inductive PolicyError where
  | invalidReadingLevel : String → PolicyError
deriving DecidableEq, Repr

/-- The five reading-level tags, as they appear on the wire
(frontend/src/types ReadingLevel union). -/
def READING_LEVEL_TAGS : List String :=
  ["grade3", "grade6", "grade8", "high_school", "college"]

/-- Modelled from the spec: the per-tier prompt fragment of the
reading-level policy (backend llm_client.py is absent from the sources);
the texts paraphrase the tier descriptions published in
frontend/src/types. -/
def promptFragment (lvl : ReadingLevel) : String :=
  match lvl with
  | .grade3 =>
      "Write for a third grade reader: very simple words and short sentences."
  | .grade6 =>
      "Write for a sixth grade reader: simple language that is easy to understand."
  | .grade8 =>
      "Write for an eighth grade reader: clear and straightforward language."
  | .highSchool =>
      "Write for a high school reader: standard vocabulary with some medical terms."
  | .college =>
      "Write for a college level reader: advanced vocabulary and medical terminology."

/-- Modelled from the spec: the reading-level policy (backend
llm_client.py is absent from the sources) maps a tag to its prompt
fragment and fails with InvalidReadingLevel on an unknown tag rather than
defaulting to some tier. -/
def readingLevelPolicy (tag : String) : Except PolicyError String :=
  if tag = "grade3" then .ok (promptFragment .grade3)
  else if tag = "grade6" then .ok (promptFragment .grade6)
  else if tag = "grade8" then .ok (promptFragment .grade8)
  else if tag = "high_school" then .ok (promptFragment .highSchool)
  else if tag = "college" then .ok (promptFragment .college)
  else .error (.invalidReadingLevel tag)

/-- Claim C5: each of the five reading-level tags yields a non-empty
prompt fragment, the five fragments are pairwise distinct, and every
other tag fails with InvalidReadingLevel carrying that tag. -/
theorem readingLevelPolicy_total_distinct :
    (∀ tag ∈ READING_LEVEL_TAGS,
      ∃ s, readingLevelPolicy tag = .ok s ∧ s ≠ "") ∧
    (READING_LEVEL_TAGS.map
      (fun tag => (readingLevelPolicy tag).toOption.getD "")).Nodup ∧
    (∀ tag, tag ∉ READING_LEVEL_TAGS →
      readingLevelPolicy tag = .error (.invalidReadingLevel tag)) := by
  refine ⟨?_, by decide, ?_⟩
  · intro tag htag
    fin_cases htag <;> exact ⟨_, rfl, by decide⟩
  intro tag h
  simp only [READING_LEVEL_TAGS, List.mem_cons, List.not_mem_nil,
    or_false, not_or] at h
  obtain ⟨h1, h2, h3, h4, h5⟩ := h
  simp [readingLevelPolicy, h1, h2, h3, h4, h5]

/-- Witness for C5: an unknown tag at a concrete input. -/
theorem readingLevelPolicy_total_distinct_witness :
    readingLevelPolicy "graduate" =
      .error (.invalidReadingLevel "graduate") :=
  readingLevelPolicy_total_distinct.2.2 "graduate" (by decide)

/-- One raw result from the pluggable search backend. -/
structure SearchResult where
  url : String
  domain : String
  title : String
  snippet : String
deriving DecidableEq, Repr

/-- Failure of the search backend itself. -/
inductive SearchError where
  | backendFailure : String → SearchError
deriving DecidableEq, Repr

/-- A candidate source document handed to the generation engine. -/
structure SourceDocument where
  url : String
  title : String
  text : String
deriving DecidableEq, Repr

/-- Error outcomes of the content source resolver (spec section 7). -/
inductive ResolveError where
  | noTrustedSourcesFound
  | extractionFailed
deriving DecidableEq, Repr

/-- The default trusted-domain allowlist (README, Configuration). -/
def TRUSTED_DOMAINS : List String :=
  [ "cdc.gov", "nih.gov", "who.int", "mayoclinic.org",
    "hopkinsmedicine.org", "health.harvard.edu", "webmd.com",
    "medlineplus.gov" ]

/-- The bounded number of candidate sources kept (spec section 4.2). -/
def MAX_SOURCES : Nat := 3

/-- Modelled from the spec: the source finder (backend source_finder.py
is absent from the sources).  Given the outcome of the search backend, it
fails with noTrustedSourcesFound on a backend error or when no result
lies on a trusted domain; otherwise it keeps up to MAX_SOURCES trusted
results in relevance order. -/
def resolveQuery
    (backendOutcome : Except SearchError (List SearchResult)) :
    Except ResolveError (List SourceDocument) :=
  match backendOutcome with
  | .error _ => .error .noTrustedSourcesFound
  | .ok results =>
      match results.filter (fun r => TRUSTED_DOMAINS.contains r.domain) with
      | [] => .error .noTrustedSourcesFound
      | t :: ts =>
          .ok (((t :: ts).take MAX_SOURCES).map
            (fun r => ⟨r.url, r.title, r.snippet⟩))

/-- One section of an explainer. -/
structure ExplainerSection where
  heading : String
  content : String
deriving DecidableEq, Repr

/-- A cited source of an explainer (frontend/src/types Source). -/
structure CitedSource where
  url : String
  title : String
  excerpt : Option String
deriving DecidableEq, Repr

/-- The structured explainer returned to the caller (frontend/src/types
ExplainerResponse). -/
structure ExplainerResponse where
  title : String
  sections : List ExplainerSection
  sources : List CitedSource
  disclaimer : String
deriving DecidableEq, Repr

/-- Modelled from the spec: the explain pipeline resolves sources first
and only hands them to the generation engine on success; a resolution
failure propagates and the engine is not invoked. -/
def explainPipeline
    (generation : List SourceDocument → ExplainerResponse)
    (backendOutcome : Except SearchError (List SearchResult)) :
    Except ResolveError ExplainerResponse :=
  (resolveQuery backendOutcome).map generation

/-- Claim C6: when the search backend errors, or yields no result on a
trusted domain, the resolver fails with noTrustedSourcesFound and the
pipeline output is that error for every possible generation engine, the
same for any two engines, so no content is fabricated without sources. -/
theorem resolver_failure_blocks_generation
    (outcome : Except SearchError (List SearchResult))
    (h : (∃ e, outcome = .error e) ∨
      (∃ rs, outcome = .ok rs ∧
        rs.filter (fun r => TRUSTED_DOMAINS.contains r.domain) = [])) :
    resolveQuery outcome = .error .noTrustedSourcesFound ∧
    ∀ g1 g2 : List SourceDocument → ExplainerResponse,
      explainPipeline g1 outcome = .error .noTrustedSourcesFound ∧
      explainPipeline g1 outcome = explainPipeline g2 outcome := by
  have hres : resolveQuery outcome = .error .noTrustedSourcesFound := by
    rcases h with ⟨e, he⟩ | ⟨rs, hrs, hfil⟩
    · rw [he]; rfl
    · subst hrs
      simp only [resolveQuery, hfil]
  refine ⟨hres, fun g1 g2 => ?_⟩
  unfold explainPipeline
  rw [hres]
  exact ⟨rfl, rfl⟩

/-- Witness for C6: a backend answer whose only result is on an untrusted
domain, with two distinct generation engines. -/
theorem resolver_failure_blocks_generation_witness :
    resolveQuery (.ok [⟨"https://example.com/a", "example.com", "t",
      "s"⟩]) = .error .noTrustedSourcesFound ∧
    ∀ g1 g2 : List SourceDocument → ExplainerResponse,
      explainPipeline g1 (.ok [⟨"https://example.com/a", "example.com",
        "t", "s"⟩]) = .error .noTrustedSourcesFound ∧
      explainPipeline g1 (.ok [⟨"https://example.com/a", "example.com",
        "t", "s"⟩]) =
      explainPipeline g2 (.ok [⟨"https://example.com/a", "example.com",
        "t", "s"⟩]) :=
  resolver_failure_blocks_generation
    (.ok [⟨"https://example.com/a", "example.com", "t", "s"⟩])
    (Or.inr ⟨[⟨"https://example.com/a", "example.com", "t", "s"⟩],
      rfl, by decide⟩)

/-- Whitespace characters removed by trimming. -/
def isWS (c : Char) : Bool :=
  c == ' ' || c == '\t' || c == '\n' || c == '\r'

/-- Removes leading and trailing whitespace, the behaviour of the trim
operation used by the sources. -/
def strTrim (s : String) : String :=
  String.mk ((((s.toList.dropWhile isWS).reverse).dropWhile isWS).reverse)

/-- Splits a string at newline characters. -/
def splitLinesAux : List Char → List Char → List String
  | [], acc => [String.mk acc.reverse]
  | c :: cs, acc =>
      if c = '\n' then String.mk acc.reverse :: splitLinesAux cs []
      else splitLinesAux cs (c :: acc)

/-- The lines of a string. -/
def splitLines (s : String) : List String :=
  splitLinesAux s.toList []

/-- The policy-injected medical disclaimer appended to every generated
piece of content. -/
def DISCLAIMER : String :=
  "This content is for educational purposes only and is not medical advice. Always consult healthcare professionals for medical guidance."

/-- Error outcomes of the generation engine (spec section 7). -/
inductive GenError where
  | generationFailed
  | malformedGenerationOutput
deriving DecidableEq, Repr

/-- Modelled from the spec: the generation engine parse step (backend
llm_client.py is absent from the sources).  The raw model text is parsed
tolerantly: the first non-blank line becomes the title and the remaining
non-blank lines become section content; an output with no recoverable
title fails with malformedGenerationOutput.  The disclaimer field is
injected from policy and never taken from the model text. -/
def generateExplainer (docs : List SourceDocument) (_lvl : ReadingLevel)
    (modelText : String) : Except GenError ExplainerResponse :=
  match (splitLines modelText).filter (fun l => strTrim l ≠ "") with
  | [] => .error .malformedGenerationOutput
  | titleLine :: rest =>
      .ok
        { title := strTrim titleLine
          sections := rest.map (fun l => ⟨"", l⟩)
          sources := docs.map (fun d => ⟨d.url, d.title, none⟩)
          disclaimer := DISCLAIMER }

/-- Claim C7: the disclaimer text is non-empty; every successful
generation, whatever the model text, carries exactly the policy-injected
disclaimer; hence two successful calls on the same sources and level have
the same disclaimer even when the model texts differ. -/
theorem generateExplainer_disclaimer_injected :
    DISCLAIMER ≠ "" ∧
    (∀ (docs : List SourceDocument) (lvl : ReadingLevel)
      (modelText : String) (r : ExplainerResponse),
      generateExplainer docs lvl modelText = .ok r →
      r.disclaimer = DISCLAIMER) ∧
    (∀ (docs : List SourceDocument) (lvl : ReadingLevel)
      (t1 t2 : String) (r1 r2 : ExplainerResponse),
      generateExplainer docs lvl t1 = .ok r1 →
      generateExplainer docs lvl t2 = .ok r2 →
      r1.disclaimer = r2.disclaimer) := by
  have hok : ∀ (docs : List SourceDocument) (lvl : ReadingLevel)
      (modelText : String) (r : ExplainerResponse),
      generateExplainer docs lvl modelText = .ok r →
      r.disclaimer = DISCLAIMER := by
    intro docs lvl modelText r h
    unfold generateExplainer at h
    split at h
    · exact absurd h (by simp)
    · simp only [Except.ok.injEq] at h
      subst h
      rfl
  refine ⟨by decide, hok, ?_⟩
  intro docs lvl t1 t2 r1 r2 h1 h2
  rw [hok docs lvl t1 r1 h1, hok docs lvl t2 r2 h2]

/-- Witness for C7: two concrete model texts that differ in prose yield
results with the identical policy disclaimer. -/
theorem generateExplainer_disclaimer_injected_witness :
    (⟨"Flu basics", [], [], DISCLAIMER⟩ :
      ExplainerResponse).disclaimer =
    (⟨"About influenza", [⟨"", "Rest helps."⟩], [], DISCLAIMER⟩ :
      ExplainerResponse).disclaimer :=
  generateExplainer_disclaimer_injected.2.2 [] .grade6
    "Flu basics" "About influenza\nRest helps."
    ⟨"Flu basics", [], [], DISCLAIMER⟩
    ⟨"About influenza", [⟨"", "Rest helps."⟩], [], DISCLAIMER⟩
    (by decide) (by decide)

/-- The two tabs of the query-input form
(frontend QueryInput inputMode). -/
inductive InputMode where
  | queryMode
  | urlMode
deriving DecidableEq, Repr

/-- The form state of the QueryInput component: active tab, the two text
fields and the selected reading level. -/
structure QueryInputState where
  inputMode : InputMode
  query : String
  url : String
  readingLevel : ReadingLevel
deriving DecidableEq, Repr

/-- The payload of a POST to the explain endpoint as the form submits it
(frontend/src/types ExplainRequest, raw_text unused by the form). -/
structure ExplainRequestPayload where
  query : Option String
  url : Option String
  reading_level : ReadingLevel
deriving DecidableEq, Repr

/-- The submit handler of QueryInput (frontend QueryInput handleSubmit):
in query mode a request with the trimmed query is produced when the
trimmed query is non-blank, in url mode likewise for the url field;
otherwise no request is produced. -/
def handleSubmit (s : QueryInputState) : Option ExplainRequestPayload :=
  match s.inputMode with
  | .queryMode =>
      if strTrim s.query ≠ "" then
        some ⟨some (strTrim s.query), none, s.readingLevel⟩
      else none
  | .urlMode =>
      if strTrim s.url ≠ "" then
        some ⟨none, some (strTrim s.url), s.readingLevel⟩
      else none

/-- Auxiliary: the head of a dropWhile result fails the predicate. -/
theorem dropWhile_head_false {α : Type} (p : α → Bool) :
    ∀ (l : List α) (c : α) (cs : List α),
      l.dropWhile p = c :: cs → p c = false := by
  intro l
  induction l with
  | nil => intro c cs h; simp at h
  | cons a as ih =>
      intro c cs h
      rw [List.dropWhile_cons] at h
      by_cases ha : p a
      · rw [if_pos ha] at h
        exact ih c cs h
      · rw [if_neg ha] at h
        obtain ⟨h1, h2⟩ := List.cons.injEq .. ▸ h
        subst h1
        exact Bool.eq_false_iff.mpr ha

/-- Auxiliary: dropWhile is the identity when the head already fails the
predicate. -/
theorem dropWhile_of_head_false {α : Type} (p : α → Bool) (l : List α)
    (h : ∀ c cs, l = c :: cs → p c = false) : l.dropWhile p = l := by
  cases l with
  | nil => rfl
  | cons a as =>
      rw [List.dropWhile_cons, h a as rfl]
      simp

/-- Auxiliary: dropWhile keeps the last element of a list when its result
is non-empty. -/
theorem dropWhile_getLast_eq {α : Type} (p : α → Bool) :
    ∀ l : List α, l.dropWhile p ≠ [] →
      (l.dropWhile p).getLast? = l.getLast? := by
  intro l
  induction l with
  | nil => intro h; simp at h
  | cons a as ih =>
      intro h
      rw [List.dropWhile_cons] at h ⊢
      by_cases ha : p a
      · rw [if_pos ha] at h ⊢
        have has : as ≠ [] := by
          intro he
          subst he
          simp at h
        rw [ih h]
        cases as with
        | nil => exact absurd rfl has
        | cons b bs => rw [List.getLast?_cons_cons]
      · rw [if_neg ha]

/-- Auxiliary: trimming both ends of a character list is idempotent. -/
theorem trim_chars_idem (p : Char → Bool) (l : List Char) :
    (((((l.dropWhile p).reverse.dropWhile p).reverse).dropWhile
      p).reverse.dropWhile p).reverse =
    ((l.dropWhile p).reverse.dropWhile p).reverse := by
  cases hk : (l.dropWhile p).reverse.dropWhile p with
  | nil => simp [hk]
  | cons c cs =>
      have hc : p c = false := dropWhile_head_false p _ c cs hk
      have hrhead : ∀ d ds, (c :: cs).reverse = d :: ds → p d = false := by
        intro d ds hd
        have h1 : ((c :: cs).reverse).head? = some d := by rw [hd]; rfl
        rw [List.head?_reverse] at h1
        have h2 : ((l.dropWhile p).reverse.dropWhile p).getLast? =
            (l.dropWhile p).reverse.getLast? :=
          dropWhile_getLast_eq p _ (by rw [hk]; simp)
        rw [hk] at h2
        rw [h2] at h1
        have h3 : (l.dropWhile p).reverse.getLast? =
            (l.dropWhile p).head? := by
          rw [← List.head?_reverse, List.reverse_reverse]
        rw [h3] at h1
        cases hm : l.dropWhile p with
        | nil => rw [hm] at h1; simp at h1
        | cons e es =>
            rw [hm] at h1
            simp only [List.head?_cons, Option.some.injEq] at h1
            exact h1 ▸ dropWhile_head_false p l e es hm
      have hdr : (c :: cs).reverse.dropWhile p = (c :: cs).reverse :=
        dropWhile_of_head_false p _ hrhead
      rw [hdr, List.reverse_reverse,
        dropWhile_of_head_false p (c :: cs) ?_]
      intro d ds hd
      obtain ⟨h1, h2⟩ := List.cons.injEq .. ▸ hd
      exact h1 ▸ hc

/-- Auxiliary: strTrim is idempotent, so a trimmed value is blank after a
further trim exactly when it is empty. -/
theorem strTrim_idem (t : String) : strTrim (strTrim t) = strTrim t := by
  unfold strTrim
  exact congrArg String.mk (trim_chars_idem isWS t.toList)

/-- Claim C9: every request the form submits carries exactly one of the
query and url fields, the carried value being non-empty and stable under
trimming (hence non-blank after trimming); and when the active field is
blank after trimming, the handler produces no request. -/
theorem handleSubmit_one_nonblank_field :
    (∀ (s : QueryInputState) (r : ExplainRequestPayload),
      handleSubmit s = some r →
      ((∃ q, r.query = some q ∧ strTrim q = q ∧ q ≠ "") ∧ r.url = none) ∨
      (r.query = none ∧
        (∃ u, r.url = some u ∧ strTrim u = u ∧ u ≠ ""))) ∧
    (∀ s : QueryInputState, s.inputMode = .queryMode →
      strTrim s.query = "" → handleSubmit s = none) ∧
    (∀ s : QueryInputState, s.inputMode = .urlMode →
      strTrim s.url = "" → handleSubmit s = none) := by
  refine ⟨?_, ?_, ?_⟩
  · intro s r h
    obtain ⟨mode, q, u, lvl⟩ := s
    cases mode
    · by_cases hq : strTrim q = ""
      · simp [handleSubmit, hq] at h
      · simp only [handleSubmit, ne_eq, hq, not_false_eq_true, if_true,
          Option.some.injEq] at h
        subst h
        exact Or.inl ⟨⟨strTrim q, rfl, strTrim_idem q, hq⟩, rfl⟩
    · by_cases hu : strTrim u = ""
      · simp [handleSubmit, hu] at h
      · simp only [handleSubmit, ne_eq, hu, not_false_eq_true, if_true,
          Option.some.injEq] at h
        subst h
        exact Or.inr ⟨rfl, ⟨strTrim u, rfl, strTrim_idem u, hu⟩⟩
  · intro s hm hq
    obtain ⟨mode, q, u, lvl⟩ := s
    cases mode
    · simp only [handleSubmit]
      simp_all
    · simp at hm
  · intro s hm hu
    obtain ⟨mode, q, u, lvl⟩ := s
    cases mode
    · simp at hm
    · simp only [handleSubmit]
      simp_all

/-- Witness for C9: a padded query submits its trimmed text; an
all-blank query submits nothing. -/
theorem handleSubmit_one_nonblank_field_witness :
    (((∃ q, (⟨some "flu shots", none, ReadingLevel.grade6⟩ :
        ExplainRequestPayload).query = some q ∧ strTrim q = q ∧
        q ≠ "") ∧
      (⟨some "flu shots", none, ReadingLevel.grade6⟩ :
        ExplainRequestPayload).url = none) ∨
     ((⟨some "flu shots", none, ReadingLevel.grade6⟩ :
        ExplainRequestPayload).query = none ∧
      (∃ u, (⟨some "flu shots", none, ReadingLevel.grade6⟩ :
        ExplainRequestPayload).url = some u ∧ strTrim u = u ∧
        u ≠ ""))) ∧
    handleSubmit ⟨.queryMode, "   ", "x", .grade6⟩ = none :=
  ⟨handleSubmit_one_nonblank_field.1
      ⟨.queryMode, " flu shots ", "", .grade6⟩
      ⟨some "flu shots", none, .grade6⟩ (by decide),
   handleSubmit_one_nonblank_field.2.1
      ⟨.queryMode, "   ", "x", .grade6⟩ rfl (by decide)⟩

/-- The type filter of the briefings page (all, data analysis, article
summaries). -/
inductive FilterChoice where
  | all
  | dataAnalysis
  | articleSummary
deriving DecidableEq, Repr

/-- The state of the Briefings page relevant to pagination: the page
index, the active filter and the last total count received from the
server.  The page index is an integer, as in the source. -/
structure BriefingsPageState where
  page : Int
  filterSel : FilterChoice
  total : Nat
deriving DecidableEq, Repr

/-- The fixed page size of the briefings list page. -/
def pageSize : Nat := 10

/-- The total page count derived from the server total: the ceiling of
total divided by the page size (Briefings.tsx totalPages). -/
def totalPagesOf (total : Nat) : Int :=
  Int.ofNat ((total + pageSize - 1) / pageSize)

/-- The events the page reacts to: the two pagination buttons, a filter
button, and a server response carrying the total count. -/
inductive PageEvent where
  | clickPrev
  | clickNext
  | pickFilter (f : FilterChoice)
  | loadResult (total : Nat)
deriving DecidableEq, Repr

/-- The initial state of the Briefings page: page 0, filter all, no
items loaded yet. -/
def initBriefingsState : BriefingsPageState := ⟨0, .all, 0⟩

/-- One step of the Briefings page (Briefings.tsx).  The pagination
buttons exist only when totalPages exceeds 1; Previous is disabled at
page 0 and otherwise sets the page to max 0 (page - 1); Next is disabled
at or beyond totalPages - 1 and otherwise sets the page to
min (totalPages - 1) (page + 1); every filter button resets the page to
0; a server response stores the total. -/
def stepBriefings (s : BriefingsPageState) (e : PageEvent) :
    BriefingsPageState :=
  match e with
  | .clickPrev =>
      if 1 < totalPagesOf s.total ∧ s.page ≠ 0 then
        { s with page := max 0 (s.page - 1) }
      else s
  | .clickNext =>
      if 1 < totalPagesOf s.total ∧ s.page < totalPagesOf s.total - 1 then
        { s with page := min (totalPagesOf s.total - 1) (s.page + 1) }
      else s
  | .pickFilter f => { s with filterSel := f, page := 0 }
  | .loadResult t => { s with total := t }

/-- The states the Briefings page can reach from its initial state. -/
inductive ReachableBriefings : BriefingsPageState → Prop where
  | init : ReachableBriefings initBriefingsState
  | step : ∀ {s : BriefingsPageState}, ReachableBriefings s →
      ∀ e : PageEvent, ReachableBriefings (stepBriefings s e)

/-- The offset of the list request issued by loadBriefings:
page times the page size. -/
def requestOffset (s : BriefingsPageState) : Int :=
  s.page * (pageSize : Int)

/-- Auxiliary: every step of the Briefings page keeps the page index
non-negative. -/
theorem stepBriefings_page_nonneg (s : BriefingsPageState) (e : PageEvent)
    (h : 0 ≤ s.page) : 0 ≤ (stepBriefings s e).page := by
  cases e with
  | clickPrev =>
      by_cases hg : 1 < totalPagesOf s.total ∧ s.page ≠ 0
      · simp only [stepBriefings, if_pos hg]
        exact le_max_left 0 _
      · simp only [stepBriefings, if_neg hg]
        exact h
  | clickNext =>
      by_cases hg : 1 < totalPagesOf s.total ∧
          s.page < totalPagesOf s.total - 1
      · simp only [stepBriefings, if_pos hg]
        exact le_min (by omega) (by omega)
      · simp only [stepBriefings, if_neg hg]
        exact h
  | pickFilter f => exact le_refl 0
  | loadResult t => exact h

/-- Claim C10: the Briefings page index starts at 0, stays non-negative
in every reachable state (Previous never drives it below 0), the Next
button never drives it above totalPages - 1, every filter change resets
it to 0, and the offset of every issued list request is page times 10, a
non-negative multiple of 10. -/
theorem briefings_page_offset_invariant :
    initBriefingsState.page = 0 ∧
    (∀ s : BriefingsPageState, ReachableBriefings s → 0 ≤ s.page) ∧
    (∀ (s : BriefingsPageState) (e : PageEvent), 0 ≤ s.page →
      0 ≤ (stepBriefings s e).page) ∧
    (∀ s : BriefingsPageState, 1 < totalPagesOf s.total →
      s.page < totalPagesOf s.total - 1 →
      (stepBriefings s .clickNext).page ≤ totalPagesOf s.total - 1) ∧
    (∀ (s : BriefingsPageState) (f : FilterChoice),
      (stepBriefings s (.pickFilter f)).page = 0) ∧
    (∀ s : BriefingsPageState, ReachableBriefings s →
      requestOffset s = s.page * 10 ∧ 0 ≤ requestOffset s ∧
      (10 : Int) ∣ requestOffset s) := by
  have hinv : ∀ s : BriefingsPageState, ReachableBriefings s →
      0 ≤ s.page := by
    intro s h
    induction h with
    | init => exact le_refl 0
    | step hr e ih => exact stepBriefings_page_nonneg _ e ih
  refine ⟨rfl, hinv, stepBriefings_page_nonneg, ?_, fun s f => rfl, ?_⟩
  · intro s h1 h2
    simp only [stepBriefings, if_pos (And.intro h1 h2)]
    exact min_le_left _ _
  · intro s h
    have h0 := hinv s h
    refine ⟨?_, ?_, ⟨s.page, ?_⟩⟩
    · simp [requestOffset, pageSize]
    · exact mul_nonneg h0 (by norm_num)
    · simp only [requestOffset, pageSize]
      push_cast
      ring

/-- Witness for C10: the invariant at the initial state and the Next
bound at a concrete state with 30 items loaded and page 1. -/
theorem briefings_page_offset_invariant_witness :
    0 ≤ initBriefingsState.page ∧
    (stepBriefings ⟨1, .all, 30⟩ .clickNext).page ≤
      totalPagesOf (30 : Nat) - 1 ∧
    (stepBriefings ⟨1, .all, 30⟩ (.pickFilter .dataAnalysis)).page = 0 ∧
    requestOffset initBriefingsState = initBriefingsState.page * 10 ∧
    0 ≤ requestOffset initBriefingsState ∧
    (10 : Int) ∣ requestOffset initBriefingsState :=
  ⟨briefings_page_offset_invariant.2.1 initBriefingsState
      ReachableBriefings.init,
   briefings_page_offset_invariant.2.2.2.1 ⟨1, .all, 30⟩ (by decide)
      (by decide),
   briefings_page_offset_invariant.2.2.2.2.1 ⟨1, .all, 30⟩ .dataAnalysis,
   (briefings_page_offset_invariant.2.2.2.2.2 initBriefingsState
      ReachableBriefings.init).1,
   (briefings_page_offset_invariant.2.2.2.2.2 initBriefingsState
      ReachableBriefings.init).2.1,
   (briefings_page_offset_invariant.2.2.2.2.2 initBriefingsState
      ReachableBriefings.init).2.2⟩

end EazyHealth
